import Mathlib

/-!
Shallow embedding of the xbs PUDO integration server (server.js and its
variant drafts).  JavaScript numbers are modelled as exact rationals plus
an explicit NaN value; `undefined` object fields are modelled as `Option`;
JavaScript truthiness of the relevant value shapes is modelled explicitly.
-/

/-- A JavaScript number: either an actual (rational) value or NaN.
Overflow and rounding of IEEE doubles play no role in the quantities this
server manipulates (grams, quantities, small sums), so the numeric content
is modelled exactly. -/
inductive JNum where
  | num (q : ℚ)
  | nan
  deriving DecidableEq, Repr

/-- Lift an optional number into a JavaScript arithmetic operand:
`undefined` entering arithmetic becomes NaN. -/
def jsOfOpt : Option ℚ → JNum
  | some q => .num q
  | none => .nan

/-- JavaScript `+` on numbers: NaN propagates. -/
def jsAdd : JNum → JNum → JNum
  | .num a, .num b => .num (a + b)
  | _, _ => .nan

/-- JavaScript `*` on numbers: NaN propagates. -/
def jsMul : JNum → JNum → JNum
  | .num a, .num b => .num (a * b)
  | _, _ => .nan

/-- Division by the literal 1000 (the grams → kilograms conversion in
`calculateWeight`); NaN propagates.  The divisor is a fixed nonzero
literal in the source, so rational division is exact. -/
def jsDiv1000 : JNum → JNum
  | .num a => .num (a / 1000)
  | .nan => .nan

/-- JavaScript `Math.max`: returns NaN if either argument is NaN. -/
def jsMax : JNum → JNum → JNum
  | .num a, .num b => .num (max a b)
  | _, _ => .nan

/-- JavaScript truthiness of an optional number: `undefined`, `0` and NaN
are falsy. -/
def jnumTruthy : Option JNum → Bool
  | none => false
  | some .nan => false
  | some (.num q) => q ≠ 0

/-- JavaScript truthiness of an optional string: `undefined` and the empty
string are falsy. -/
def optStrTruthy : Option String → Bool
  | none => false
  | some s => s ≠ ""

/-- JavaScript `a || b` where `a` is an optional string and `b` a string:
returns `a` when truthy, else `b`. -/
def jsOrS (a : Option String) (b : String) : String :=
  match a with
  | some s => if s = "" then b else s
  | none => b

/-- JavaScript `a || b` on two optional strings. -/
def jsOrOpt (a b : Option String) : Option String :=
  if optStrTruthy a then a else b

/-- JavaScript `String.prototype.includes`: substring containment,
modelled as list-infix on the characters. -/
def strContains (s pat : String) : Bool :=
  decide (pat.data <:+: s.data)

/-- JavaScript `String.prototype.toUpperCase` (ASCII-relevant part),
character-wise on the underlying character list. -/
def jsToUpper (s : String) : String :=
  ⟨s.data.map Char.toUpper⟩

/-- JavaScript `String.prototype.toLowerCase` (ASCII-relevant part),
character-wise on the underlying character list. -/
def jsToLower (s : String) : String :=
  ⟨s.data.map Char.toLower⟩

/-- A Shopify order line item as consumed by `calculateWeight` and the
order reshaping (fields `title`, `quantity`, `price`, `grams`, `sku`);
every field can be absent. -/
structure LineItem where
  title : Option String
  quantity : Option ℚ
  price : Option String
  grams : Option ℚ
  sku : Option String
  deriving DecidableEq, Repr

/-- `calculateWeight` (server.js lines 17-21, identical in all variants):
`lineItems.reduce((total, item) => total + (item.grams * item.quantity / 1000), 0)`. -/
def calculateWeight (lineItems : List LineItem) : JNum :=
  lineItems.foldl
    (fun total item =>
      jsAdd total (jsDiv1000 (jsMul (jsOfOpt item.grams) (jsOfOpt item.quantity))))
    (.num 0)

/-- The shipment weight computed by the order-completion handler in the
updated variant (src/unnamed/part_000 line 477):
`Math.max(0.1, calculateWeight(orderData.line_items))`. -/
def shipmentWeight (lineItems : List LineItem) : JNum :=
  jsMax (.num (1/10)) (calculateWeight lineItems)

/-- A fully-specified line item carrying only mass and quantity, used to
state claims about weight computation. -/
def mkWeightItem (g q : ℚ) : LineItem :=
  { title := none, quantity := some q, price := none, grams := some g, sku := none }

theorem calculateWeight_num (l : List (ℚ × ℚ)) (a : ℚ) :
    (l.map fun p => mkWeightItem p.1 p.2).foldl
      (fun total item =>
        jsAdd total (jsDiv1000 (jsMul (jsOfOpt item.grams) (jsOfOpt item.quantity))))
      (.num a)
      = .num (a + (l.map fun p => p.1 * p.2 / 1000).sum) := by
  induction l generalizing a with
  | nil => simp
  | cons hd tl ih =>
      simp only [List.map_cons, List.foldl_cons, List.sum_cons]
      have hstep :
          jsAdd (JNum.num a)
            (jsDiv1000 (jsMul (jsOfOpt (mkWeightItem hd.1 hd.2).grams)
              (jsOfOpt (mkWeightItem hd.1 hd.2).quantity))) = JNum.num (a + hd.1 * hd.2 / 1000) := rfl
      rw [hstep, ih]
      congr 1
      ring

theorem calculateWeight_spec (l : List (ℚ × ℚ)) :
    calculateWeight (l.map fun p => mkWeightItem p.1 p.2)
      = .num ((l.map fun p => p.1 * p.2 / 1000).sum) := by
  simpa using calculateWeight_num l 0

/-- C2: For every list of line items, the Weight Calculator returns the sum of
(unitMassGrams * quantity) / 1000 in kilograms, except that whenever this sum is
below 0.1 kg the result is the floor value 0.1 kg instead; in particular
totalMass([{unitMassGrams:500, quantity:2}]) = 1.0 and
totalMass([{unitMassGrams:10, quantity:1}]) = 0.1, not 0.01. -/
theorem weight_calculator_floor (l : List (ℚ × ℚ)) :
    shipmentWeight (l.map fun p => mkWeightItem p.1 p.2)
        = .num (if (l.map fun p => p.1 * p.2 / 1000).sum < 1/10
                then 1/10 else (l.map fun p => p.1 * p.2 / 1000).sum)
      ∧ shipmentWeight [mkWeightItem 500 2] = .num 1
      ∧ shipmentWeight [mkWeightItem 10 1] = .num (1/10)
      ∧ (1 : ℚ)/10 ≠ 1/100 := by
  have main : ∀ l : List (ℚ × ℚ),
      shipmentWeight (l.map fun p => mkWeightItem p.1 p.2)
        = .num (if (l.map fun p => p.1 * p.2 / 1000).sum < 1/10
                then 1/10 else (l.map fun p => p.1 * p.2 / 1000).sum) := by
    intro l
    have h1 : shipmentWeight (l.map fun p => mkWeightItem p.1 p.2)
        = jsMax (.num (1/10)) (.num ((l.map fun p => p.1 * p.2 / 1000).sum)) := by
      rw [shipmentWeight, calculateWeight_spec]
    rw [h1]
    show JNum.num (max (1/10) ((l.map fun p => p.1 * p.2 / 1000).sum)) = _
    congr 1
    rcases lt_or_le ((l.map fun p => p.1 * p.2 / 1000).sum) (1/10) with h | h
    · rw [if_pos h, max_eq_left h.le]
    · rw [if_neg (not_lt.mpr h), max_eq_right h]
  refine ⟨main l, ?_, ?_, by norm_num⟩
  · have h2 := main [(500, 2)]
    norm_num at h2
    exact h2
  · have h3 := main [(10, 1)]
    norm_num at h3
    exact h3

/-- One NaN contribution makes the whole fold NaN: `jsAdd` never recovers
from a NaN accumulator. -/
theorem calculateWeight_foldl_nan (items : List LineItem) :
    items.foldl
      (fun total item =>
        jsAdd total (jsDiv1000 (jsMul (jsOfOpt item.grams) (jsOfOpt item.quantity))))
      JNum.nan = JNum.nan := by
  induction items with
  | nil => rfl
  | cons hd tl ih => simpa using ih

theorem calculateWeight_nan_of_missing (items : List LineItem) (pre post : List LineItem)
    (it : LineItem) (hsplit : items = pre ++ it :: post)
    (hmiss : it.grams = none ∨ it.quantity = none) :
    calculateWeight items = JNum.nan := by
  subst hsplit
  rw [calculateWeight, List.foldl_append, List.foldl_cons]
  have hnan : jsDiv1000 (jsMul (jsOfOpt it.grams) (jsOfOpt it.quantity)) = JNum.nan := by
    rcases hmiss with h | h
    · rw [h]
      cases jsOfOpt it.quantity <;> rfl
    · rw [h]
      cases jsOfOpt it.grams <;> rfl
  have hacc : ∀ j : JNum,
      jsAdd j (jsDiv1000 (jsMul (jsOfOpt it.grams) (jsOfOpt it.quantity))) = JNum.nan := by
    intro j
    rw [hnan]
    cases j <;> rfl
  rw [hacc]
  exact calculateWeight_foldl_nan post

/-- C3 counterexample: a list whose first item is missing its mass.  The
claim predicts the total over the remaining fully-specified items
(500 g × 1 = 0.5 kg, above the floor), but the code yields NaN. -/
theorem missing_mass_yields_nan_not_sum :
    shipmentWeight
        [{ title := none, quantity := some 2, price := none, grams := none, sku := none },
         mkWeightItem 500 1] = JNum.nan
      ∧ JNum.nan ≠ JNum.num (1/2)
      ∧ JNum.nan ≠ JNum.num (1/10) := by
  refine ⟨rfl, by simp, by simp⟩

/-- C3 (amended): if any line item is missing its unit mass or its
quantity, no error is raised but the computed total is NaN — the missing
value propagates as NaN through the arithmetic rather than being treated
as zero, and the `Math.max(0.1, ·)` floor also returns NaN. -/
theorem missing_field_total_is_nan (items : List LineItem) (it : LineItem)
    (hmem : it ∈ items) (hmiss : it.grams = none ∨ it.quantity = none) :
    calculateWeight items = JNum.nan ∧ shipmentWeight items = JNum.nan := by
  obtain ⟨pre, post, rfl⟩ := List.append_of_mem hmem
  have h := calculateWeight_nan_of_missing (pre ++ it :: post) pre post it rfl hmiss
  exact ⟨h, by rw [shipmentWeight, h]; rfl⟩

theorem missing_field_total_is_nan_witness :
    calculateWeight [mkWeightItem 500 1,
        { title := none, quantity := none, price := none, grams := some 10, sku := none }]
      = JNum.nan := by
  exact (missing_field_total_is_nan _
    { title := none, quantity := none, price := none, grams := some 10, sku := none }
    (by simp) (Or.inr rfl)).1

/-- A pickup-point record as returned by the aggregator (`data.Location`
entries); every field can be absent in the raw JSON. -/
structure XBSLocation where
  Id : Option String
  Name : Option String
  Address1 : Option String
  Address2 : Option String
  City : Option String
  Zip : Option String
  CountryCode : Option String
  Carrier : Option String
  Service : Option String
  Latitude : Option ℚ
  Longitude : Option ℚ
  BusinessHours : Option String
  deriving DecidableEq, Repr

/-- The carrier filter of the `GET /apps/xbs-pudo` handler (server.js
lines 121-136): for FR keep carriers containing "colis prive"
case-insensitively, for PL those containing "inpost", otherwise keep all.
`loc.Carrier || ''` is modelled by `getD ""`. -/
def carrierFilter (country : String) (points : List XBSLocation) : List XBSLocation :=
  points.filter fun loc =>
    let carrier := loc.Carrier.getD ""
    if jsToUpper country = "FR" then strContains (jsToLower carrier) "colis prive"
    else if jsToUpper country = "PL" then strContains (jsToLower carrier) "inpost"
    else true

/-- C1: if the country is FR (respectively PL), the carrier filter returns
exactly those records whose carrier-name field contains "colis prive"
(respectively "inpost") as a case-insensitive substring; for every other
country code, the output equals the input unchanged. -/
theorem carrier_filter_by_country (country : String) (points : List XBSLocation) :
    (jsToUpper country = "FR" →
      ∀ loc : XBSLocation, loc ∈ carrierFilter country points ↔
        loc ∈ points ∧ strContains (jsToLower (loc.Carrier.getD "")) "colis prive" = true)
    ∧ (jsToUpper country = "PL" →
      ∀ loc : XBSLocation, loc ∈ carrierFilter country points ↔
        loc ∈ points ∧ strContains (jsToLower (loc.Carrier.getD "")) "inpost" = true)
    ∧ (jsToUpper country ≠ "FR" → jsToUpper country ≠ "PL" →
      carrierFilter country points = points) := by
  refine ⟨?_, ?_, ?_⟩
  · intro hfr loc
    rw [carrierFilter, List.mem_filter]
    simp [hfr]
  · intro hpl loc
    have hne : jsToUpper country ≠ "FR" := by
      rw [hpl]
      decide
    rw [carrierFilter, List.mem_filter]
    simp [hpl, hne]
  · intro hfr hpl
    rw [carrierFilter]
    rw [List.filter_eq_self]
    intro loc _
    simp [hfr, hpl]

theorem carrier_filter_by_country_witness :
    carrierFilter "DE"
        [{ Id := some "1", Name := none, Address1 := none, Address2 := none, City := none,
           Zip := none, CountryCode := some "DE", Carrier := some "DHL", Service := none,
           Latitude := none, Longitude := none, BusinessHours := none }]
      = [{ Id := some "1", Name := none, Address1 := none, Address2 := none, City := none,
           Zip := none, CountryCode := some "DE", Carrier := some "DHL", Service := none,
           Latitude := none, Longitude := none, BusinessHours := none }] := by
  exact (carrier_filter_by_country "DE" _).2.2 (by decide) (by decide)

/-- The `Location` object of a pickup-point lookup request sent to the
aggregator. -/
structure PudoLocationQuery where
  Country : String
  Zip : Option String
  City : Option String
  ShowTemporaryOutOfService : Option Bool
  deriving DecidableEq, Repr

/-- A pickup-point lookup request body (API key omitted: configuration is
out of scope). -/
structure PudoRequest where
  Command : String
  Location : PudoLocationQuery
  deriving DecidableEq, Repr

/-- Command selection of the `GET /apps/xbs-pudo` handler (server.js
lines 66-93): `useSpecificLocation = zip && (country.toUpperCase() === 'IT'
? city : true)`; when true, a `GetLocations` request with the narrowing
fields (`City` only for IT with a truthy city); otherwise a
`GetLocationsDaily` request with `ShowTemporaryOutOfService: false`. -/
def buildPudoRequest (country : String) (zip city : Option String) : PudoRequest :=
  let useSpecificLocation :=
    optStrTruthy zip && (if jsToUpper country = "IT" then optStrTruthy city else true)
  if useSpecificLocation then
    { Command := "GetLocations",
      Location :=
        { Country := jsToUpper country, Zip := zip,
          City := if jsToUpper country = "IT" && optStrTruthy city then city else none,
          ShowTemporaryOutOfService := none } }
  else
    { Command := "GetLocationsDaily",
      Location :=
        { Country := jsToUpper country, Zip := none, City := none,
          ShowTemporaryOutOfService := some false } }

/-- C6: if a postal code is supplied (and, for country IT, a city is also
supplied), the request carries the `GetLocations` command with the
narrowing fields; otherwise it carries `GetLocationsDaily` with the
`ShowTemporaryOutOfService` flag set to false. -/
theorem pudo_command_selection (country : String) (zip city : Option String) :
    (optStrTruthy zip = true →
      (jsToUpper country = "IT" → optStrTruthy city = true) →
      (buildPudoRequest country zip city).Command = "GetLocations"
        ∧ (buildPudoRequest country zip city).Location.Zip = zip
        ∧ (jsToUpper country = "IT" →
            (buildPudoRequest country zip city).Location.City = city)
        ∧ (buildPudoRequest country zip city).Location.ShowTemporaryOutOfService = none)
    ∧ (optStrTruthy zip = false ∨
        (jsToUpper country = "IT" ∧ optStrTruthy city = false) →
      (buildPudoRequest country zip city).Command = "GetLocationsDaily"
        ∧ (buildPudoRequest country zip city).Location.ShowTemporaryOutOfService
            = some false) := by
  constructor
  · intro hzip hit
    by_cases hIT : jsToUpper country = "IT"
    · have hc := hit hIT
      simp [buildPudoRequest, hzip, hIT, hc]
    · simp [buildPudoRequest, hzip, hIT]
  · intro h
    rcases h with h | ⟨hIT, hcity⟩
    · simp [buildPudoRequest, h]
    · simp [buildPudoRequest, hIT, hcity]

theorem pudo_command_selection_witness :
    (buildPudoRequest "fr" (some "75001") none).Command = "GetLocations"
      ∧ (buildPudoRequest "fr" (some "75001") none).Location.Zip = some "75001"
      ∧ (buildPudoRequest "pl" none none).Command = "GetLocationsDaily"
      ∧ (buildPudoRequest "pl" none none).Location.ShowTemporaryOutOfService
          = some false := by
  have h1 := (pudo_command_selection "fr" (some "75001") none).1 (by decide)
    (by intro h; exact absurd h (by decide))
  have h2 := (pudo_command_selection "pl" none none).2 (Or.inl (by decide))
  exact ⟨h1.1, h1.2.1, h2.1, h2.2⟩

/-- A shipping line of an order (`shipping_lines` entries). -/
structure ShippingLine where
  title : Option String
  price : Option String
  deriving DecidableEq, Repr

/-- A shipping address after reshaping (part_000 lines 245-256 apply
string defaults, so every field is a plain string). -/
structure ShippingAddress where
  first_name : String
  last_name : String
  address1 : String
  address2 : String
  city : String
  zip : String
  phone : String
  country_code : String
  province : String
  company : String
  deriving DecidableEq, Repr

/-- An order as consumed by the handlers (result of the Order Data
Provider). -/
structure Order where
  order_number : Option String
  email : Option String
  total_price : Option String
  currency : Option String
  shipping_address : ShippingAddress
  shipping_lines : Option (List ShippingLine)
  line_items : List LineItem
  deriving DecidableEq, Repr

/-- The predicate of `getInPostCountry`'s `find` (server.js lines 36-40):
the line's title (defaulted to the empty string) contains one of the two
known method-name substrings. -/
def isInPostLine (line : ShippingLine) : Bool :=
  strContains (line.title.getD "") "InPost z Hiszpanii"
    || strContains (line.title.getD "") "France-Continent (Point Pack et Locker)"

/-- `getInPostCountry` (server.js lines 34-48): find the first shipping
line matching `isInPostLine`; map it to 'PL' if its title contains
'InPost z Hiszpanii', else to 'FR' if it contains 'France-Continent';
return null when no line matches.  (When a line is found its title is
necessarily a matching string, so `getD ""` on it is never exercised.) -/
def getInPostCountry (order : Order) : Option String :=
  let shippingLines := order.shipping_lines.getD []
  match shippingLines.find? isInPostLine with
  | some inpostLine =>
      if strContains (inpostLine.title.getD "") "InPost z Hiszpanii" then some "PL"
      else if strContains (inpostLine.title.getD "") "France-Continent" then some "FR"
      else none
  | none => none

/-- `detectedCountry` of the order-completion handler (server.js line 338):
`country || getInPostCountry(orderData) || 'FR'`. -/
def detectedCountry (country : Option String) (order : Order) : String :=
  jsOrS country (jsOrS (getInPostCountry order) "FR")

/-- Transitivity of JavaScript substring containment, via list infixes. -/
theorem strContains_of_contains (big mid small : String)
    (h1 : strContains big mid = true) (h2 : strContains mid small = true) :
    strContains big small = true := by
  simp only [strContains, decide_eq_true_eq] at h1 h2 ⊢
  exact h2.trans h1

/-- The classifier only ever yields 'PL' or 'FR'. -/
theorem getInPostCountry_mem (order : Order) (c : String)
    (h : getInPostCountry order = some c) : c = "PL" ∨ c = "FR" := by
  rw [getInPostCountry] at h
  rcases hf : (order.shipping_lines.getD []).find? isInPostLine with _ | line
  · simp [hf] at h
  · simp only [hf] at h
    split_ifs at h with h1 h2
    · exact Or.inl (Option.some_injective _ h).symm
    · exact Or.inr (Option.some_injective _ h).symm

/-- C8: the destination country of an order completion is the explicitly
supplied country when present; otherwise the classifier's result —
first shipping line containing 'InPost z Hiszpanii' maps to PL,
'France-Continent (Point Pack et Locker)' maps to FR, no match maps to
none; otherwise the fixed fallback 'FR'. -/
theorem detected_country_resolution :
    (∀ (c : String) (order : Order), c ≠ "" →
      detectedCountry (some c) order = c)
    ∧ (∀ order : Order,
        (∀ l ∈ order.shipping_lines.getD [],
          strContains (l.title.getD "") "InPost z Hiszpanii" = false
            ∧ strContains (l.title.getD "") "France-Continent (Point Pack et Locker)"
                = false) →
        getInPostCountry order = none)
    ∧ (∀ (order : Order) (line : ShippingLine),
        (order.shipping_lines.getD []).find? isInPostLine = some line →
        getInPostCountry order
          = some (if strContains (line.title.getD "") "InPost z Hiszpanii" = true
                  then "PL" else "FR"))
    ∧ (∀ (country : Option String) (order : Order) (c : String),
        optStrTruthy country = false → getInPostCountry order = some c →
        detectedCountry country order = c)
    ∧ (∀ (country : Option String) (order : Order),
        optStrTruthy country = false → getInPostCountry order = none →
        detectedCountry country order = "FR") := by
  refine ⟨?_, ?_, ?_, ?_, ?_⟩
  · intro c order hc
    simp [detectedCountry, jsOrS, hc]
  · intro order h
    have hfind : (order.shipping_lines.getD []).find? isInPostLine = none := by
      rw [List.find?_eq_none]
      intro l hl
      have := h l hl
      simp [isInPostLine, this.1, this.2]
    rw [getInPostCountry]
    rw [hfind]
  · intro order line hfind
    have hmatch : isInPostLine line = true := List.find?_some hfind
    rw [getInPostCountry]
    simp only [hfind]
    by_cases h1 : strContains (line.title.getD "") "InPost z Hiszpanii" = true
    · rw [if_pos h1, if_pos h1]
    · rw [if_neg h1, if_neg h1]
      have h2 : strContains (line.title.getD "")
          "France-Continent (Point Pack et Locker)" = true := by
        rcases Bool.or_eq_true_iff.mp (by simpa [isInPostLine] using hmatch) with h | h
        · exact absurd h h1
        · exact h
      have h3 : strContains (line.title.getD "") "France-Continent" = true :=
        strContains_of_contains _ _ _ h2 (by decide)
      rw [if_pos h3]
  · intro country order c hfalsy hcls
    have hc : c ≠ "" := by
      rcases getInPostCountry_mem order c hcls with h | h <;> simp [h]
    cases country with
    | none => simp [detectedCountry, jsOrS, hcls, hc]
    | some s =>
        have hs : s = "" := by
          by_contra hne
          simp [optStrTruthy, hne] at hfalsy
        subst hs
        simp [detectedCountry, jsOrS, hcls, hc]
  · intro country order hfalsy hcls
    cases country with
    | none => simp [detectedCountry, jsOrS, hcls]
    | some s =>
        have hs : s = "" := by
          by_contra hne
          simp [optStrTruthy, hne] at hfalsy
        subst hs
        simp [detectedCountry, jsOrS, hcls]

/-- A minimal concrete order whose single shipping line carries the French
pickup-point method name. -/
def sampleAddress : ShippingAddress :=
  { first_name := "Test", last_name := "Customer", address1 := "123 Test Street",
    address2 := "", city := "Paris", zip := "75001", phone := "+33123456789",
    country_code := "FR", province := "", company := "" }

def sampleFrenchOrder : Order :=
  { order_number := some "1001", email := some "customer@example.com",
    total_price := some "50.00", currency := some "EUR",
    shipping_address := sampleAddress,
    shipping_lines := some
      [{ title := some "France-Continent (Point Pack et Locker)", price := some "5.00" }],
    line_items := [mkWeightItem 500 1] }

theorem detected_country_resolution_witness :
    detectedCountry (some "PL") sampleFrenchOrder = "PL"
      ∧ getInPostCountry sampleFrenchOrder = some "FR"
      ∧ detectedCountry none sampleFrenchOrder = "FR" := by
  have h1 := detected_country_resolution.1 "PL" sampleFrenchOrder (by decide)
  have hfind : (sampleFrenchOrder.shipping_lines.getD []).find? isInPostLine
      = some { title := some "France-Continent (Point Pack et Locker)",
               price := some "5.00" } := by decide
  have h3 := detected_country_resolution.2.2.1 sampleFrenchOrder _ hfind
  have h3e : getInPostCountry sampleFrenchOrder = some "FR" := by
    rw [h3]
    norm_num [show strContains "France-Continent (Point Pack et Locker)"
      "InPost z Hiszpanii" = false from by decide]
  have h4 := detected_country_resolution.2.2.2.1 none sampleFrenchOrder "FR" rfl h3e
  exact ⟨h1, h3e, h4⟩

/-- A raw Shopify shipping address (every field may be absent). -/
structure RawAddress where
  first_name : Option String
  last_name : Option String
  address1 : Option String
  address2 : Option String
  city : Option String
  zip : Option String
  phone : Option String
  country_code : Option String
  province : Option String
  company : Option String
  deriving DecidableEq, Repr

/-- The raw Shopify `customer` object (fields used by the reshaping). -/
structure RawCustomer where
  first_name : Option String
  last_name : Option String
  phone : Option String
  deriving DecidableEq, Repr

/-- A raw Shopify order as returned inside `data.orders`.  The numeric
`order_number` is modelled at string level (only truthiness and
passthrough matter to this system). -/
structure RawShopifyOrder where
  order_number : Option String
  name : Option String
  email : Option String
  total_price : Option String
  currency : Option String
  shipping_address : Option RawAddress
  customer : Option RawCustomer
  shipping_lines : Option (List ShippingLine)
  line_items : Option (List LineItem)
  deriving DecidableEq, Repr

/-- The reshaping of a raw Shopify order (src/unnamed/part_000 lines
240-265): optional chaining is `Option.bind`, `||` defaults are `jsOrS`. -/
def reshapeOrder (order : RawShopifyOrder) : Order :=
  { order_number := jsOrOpt order.order_number order.name
    email := order.email
    total_price := order.total_price
    currency := order.currency
    shipping_address :=
      { first_name := jsOrS (jsOrOpt (order.shipping_address.bind RawAddress.first_name)
          (order.customer.bind RawCustomer.first_name)) "Customer"
        last_name := jsOrS (jsOrOpt (order.shipping_address.bind RawAddress.last_name)
          (order.customer.bind RawCustomer.last_name)) ""
        address1 := jsOrS (order.shipping_address.bind RawAddress.address1) ""
        address2 := jsOrS (order.shipping_address.bind RawAddress.address2) ""
        city := jsOrS (order.shipping_address.bind RawAddress.city) ""
        zip := jsOrS (order.shipping_address.bind RawAddress.zip) ""
        phone := jsOrS (jsOrOpt (order.shipping_address.bind RawAddress.phone)
          (order.customer.bind RawCustomer.phone)) ""
        country_code := jsOrS (order.shipping_address.bind RawAddress.country_code) "FR"
        province := jsOrS (order.shipping_address.bind RawAddress.province) ""
        company := jsOrS (order.shipping_address.bind RawAddress.company) "" }
    shipping_lines := some (order.shipping_lines.getD [])
    line_items := (order.line_items.map fun items => items.map fun item =>
      { title := item.title, quantity := item.quantity, price := item.price,
        grams := item.grams, sku := item.sku }).getD [] }

/-- The fixed placeholder order returned whenever the Shopify read fails
(src/unnamed/part_000 lines 271-303). -/
def mockOrder (orderNumber : String) : Order :=
  { order_number := some orderNumber
    email := some "customer@example.com"
    total_price := some "50.00"
    currency := some "EUR"
    shipping_address :=
      { first_name := "Test", last_name := "Customer", address1 := "123 Test Street",
        address2 := "", city := "Paris", zip := "75001", phone := "+33123456789",
        country_code := "FR", province := "", company := "" }
    shipping_lines := some
      [{ title := some "Points de retrait en France (choix du lieu par e-mail)",
         price := some "5.00" }]
    line_items :=
      [{ title := some "Test Product", quantity := some 1, price := some "45.00",
         grams := some 500, sku := some "TEST-001" }] }

/-- The Shopify configuration read from the environment. -/
structure ShopifyConfig where
  shopDomain : Option String
  accessToken : Option String
  deriving DecidableEq, Repr

/-- The JSON body of the Shopify orders lookup. -/
structure ShopifyBody where
  orders : Option (List RawShopifyOrder)
  deriving DecidableEq, Repr

/-- Outcome of the outbound Shopify HTTP call, as observed by the
handler: a thrown network error, or a response with an `ok` flag, a
status and a parsed body. -/
inductive FetchOutcome where
  | networkFailure (msg : String)
  | response (ok : Bool) (status : ℕ) (body : ShopifyBody)
  deriving DecidableEq, Repr

/-- The try-block of `getShopifyOrder` (src/unnamed/part_000 lines
210-265): each `throw` becomes an `Except.error`. -/
def shopifyTryBlock (cfg : ShopifyConfig) (fetched : FetchOutcome)
    (orderNumber : String) : Except String Order :=
  if !optStrTruthy cfg.shopDomain || !optStrTruthy cfg.accessToken then
    .error "Shopify API credentials not configured"
  else
    match fetched with
    | .networkFailure msg => .error msg
    | .response ok status body =>
        if !ok then .error ("Shopify API error: " ++ toString status)
        else
          match body.orders with
          | none => .error ("Order " ++ orderNumber ++ " not found in Shopify")
          | some [] => .error ("Order " ++ orderNumber ++ " not found in Shopify")
          | some (o :: _) => .ok (reshapeOrder o)

/-- `getShopifyOrder` (src/unnamed/part_000 lines 208-305): the catch
clause converts every failure into the fixed placeholder order, so the
function always produces an `Order` and never rethrows. -/
def getShopifyOrder (cfg : ShopifyConfig) (fetched : FetchOutcome)
    (orderNumber : String) : Order :=
  match shopifyTryBlock cfg fetched orderNumber with
  | .ok o => o
  | .error _ => mockOrder orderNumber

/-- C9: the Order Data Provider always returns an Order and never
propagates an error: on missing credentials, network failure, non-success
platform response, or order-not-found it returns the fixed placeholder
order; on success it returns the reshaped platform order. -/
theorem order_provider_total :
    (∀ (cfg : ShopifyConfig) (fetched : FetchOutcome) (n : String),
      optStrTruthy cfg.shopDomain = false ∨ optStrTruthy cfg.accessToken = false →
      getShopifyOrder cfg fetched n = mockOrder n)
    ∧ (∀ (cfg : ShopifyConfig) (n msg : String),
        getShopifyOrder cfg (.networkFailure msg) n = mockOrder n)
    ∧ (∀ (cfg : ShopifyConfig) (n : String) (status : ℕ) (body : ShopifyBody),
        getShopifyOrder cfg (.response false status body) n = mockOrder n)
    ∧ (∀ (cfg : ShopifyConfig) (n : String) (status : ℕ),
        getShopifyOrder cfg (.response true status ⟨none⟩) n = mockOrder n
          ∧ getShopifyOrder cfg (.response true status ⟨some []⟩) n = mockOrder n)
    ∧ (∀ (cfg : ShopifyConfig) (fetched : FetchOutcome) (n : String) (o : Order),
        shopifyTryBlock cfg fetched n = .ok o → getShopifyOrder cfg fetched n = o) := by
  refine ⟨?_, ?_, ?_, ?_, ?_⟩
  · intro cfg fetched n h
    rcases h with h | h <;>
      simp [getShopifyOrder, shopifyTryBlock, h]
  · intro cfg n msg
    rcases hd : optStrTruthy cfg.shopDomain with _ | _ <;>
      rcases ha : optStrTruthy cfg.accessToken with _ | _ <;>
        simp [getShopifyOrder, shopifyTryBlock, hd, ha]
  · intro cfg n status body
    rcases hd : optStrTruthy cfg.shopDomain with _ | _ <;>
      rcases ha : optStrTruthy cfg.accessToken with _ | _ <;>
        simp [getShopifyOrder, shopifyTryBlock, hd, ha]
  · intro cfg n status
    rcases hd : optStrTruthy cfg.shopDomain with _ | _ <;>
      rcases ha : optStrTruthy cfg.accessToken with _ | _ <;>
        constructor <;>
          simp [getShopifyOrder, shopifyTryBlock, hd, ha]
  · intro cfg fetched n o h
    simp [getShopifyOrder, h]

theorem order_provider_total_witness :
    getShopifyOrder ⟨none, none⟩ (.networkFailure "ECONNREFUSED") "1001"
        = mockOrder "1001"
      ∧ getShopifyOrder ⟨some "shop.example", some "token"⟩
          (.response true 200 ⟨some []⟩) "1001" = mockOrder "1001" := by
  exact ⟨order_provider_total.1 ⟨none, none⟩ (.networkFailure "ECONNREFUSED") "1001"
      (Or.inl rfl),
    (order_provider_total.2.2.2.1 ⟨some "shop.example", some "token"⟩ "1001" 200).2⟩

/-- A caller-supplied address in a shipment input (`consignorAddress` /
`consigneeAddress` shapes consumed by `createXBSShipment`). -/
structure InAddress where
  Name : Option String
  Company : Option String
  Address1 : Option String
  Address2 : Option String
  City : Option String
  State : Option String
  Zip : Option String
  CountryCode : Option String
  Mobile : Option String
  Email : Option String
  Vat : Option String
  Eori : Option String
  deriving DecidableEq, Repr

/-- A caller-supplied product entry of a shipment input. -/
structure InProduct where
  Description : Option String
  Sku : Option String
  HsCode : Option String
  Quantity : Option JNum
  Value : Option JNum
  deriving DecidableEq, Repr

/-- The body of a shipment-creation request (`req.body` of
`POST /apps/xbs-shipment`, also built by the order-completion handler). -/
structure ShipmentInput where
  shipperReference : Option String
  service : Option String
  weight : Option JNum
  value : Option JNum
  currency : Option String
  pudoLocationId : Option String
  consignorAddress : Option InAddress
  consigneeAddress : Option InAddress
  products : Option (List InProduct)
  deriving DecidableEq, Repr

/-- An address object of the outbound `OrderShipment` payload
(src/unnamed/part_000 lines 101-136; the constant-empty fields `NlVat`,
`EuEori`, `Ioss`, `GbEori`, `AuGst`, `Art23` are omitted). -/
structure OutAddress where
  Name : Option String
  Company : String
  AddressLine1 : Option String
  AddressLine2 : String
  AddressLine3 : String
  City : Option String
  State : String
  Zip : Option String
  Country : Option String
  Phone : String
  Email : String
  Vat : String
  Eori : Option String
  PudoLocationId : Option String
  deriving DecidableEq, Repr

/-- A product entry of the outbound `OrderShipment` payload.  `Quantity`
and `Value` are serialized with `.toString()` in the source; the numeric
content is kept. -/
structure OutProduct where
  Description : Option String
  Sku : String
  HsCode : String
  OriginCountry : String
  PurchaseUrl : String
  Quantity : JNum
  Value : JNum
  deriving DecidableEq, Repr

/-- The `Shipment` object of the outbound `OrderShipment` payload
(src/unnamed/part_000 lines 76-147; API key and the constant-empty
string fields are omitted).  `Weight` and `Value` are serialized with
`.toString()` in the source; the numeric content is kept. -/
structure ShipmentBody where
  LabelFormat : String
  ShipperReference : String
  Service : String
  Weight : JNum
  WeightUnit : String
  Length : String
  Width : String
  Height : String
  DimUnit : String
  Value : JNum
  Currency : String
  CustomsDuty : String
  Description : String
  DangerousGoods : String
  PudoLocationId : String
  ConsignorAddress : OutAddress
  ConsigneeAddress : OutAddress
  Products : List OutProduct
  deriving DecidableEq, Repr

def missingFieldsMsg : String :=
  "Missing required fields: consigneeAddress, products, weight"

def pudoRequiredMsg : String :=
  "PudoLocationId is required for CLLCT service"

/-- Mapping of one product into the outbound payload (src/unnamed/part_000
lines 137-145).  `product.Quantity.toString()` on an absent field is a
thrown TypeError, modelled as an error. -/
def buildOutProduct (p : InProduct) : Except String OutProduct :=
  match p.Quantity, p.Value with
  | some q, some v =>
      .ok { Description := p.Description, Sku := p.Sku.getD "",
            HsCode := p.HsCode.getD "3304990000", OriginCountry := "",
            PurchaseUrl := "", Quantity := q, Value := v }
  | _, _ => .error "TypeError: cannot read property of undefined"

/-- The validation and payload construction of `createXBSShipment`
(src/unnamed/part_000 lines 51-147), i.e. everything that happens before
the outbound aggregator call at line 157: an `Except.error` result means
the function throws before any outbound call is issued.  `now` stands for
`Date.now()` in the default shipper reference. -/
def createXBSShipmentRequest (now : ℕ) (input : ShipmentInput) :
    Except String ShipmentBody :=
  if !input.consigneeAddress.isSome || !input.products.isSome
      || !jnumTruthy input.weight then
    .error missingFieldsMsg
  else if !optStrTruthy input.pudoLocationId then
    .error pudoRequiredMsg
  else
    match input.consigneeAddress, input.products, input.weight,
        input.pudoLocationId, input.value, input.consignorAddress with
    | some cons, some prods, some w, some pudo, some v, some shpr =>
        (prods.mapM buildOutProduct).map fun outProds =>
          { LabelFormat := "ZPL200"
            ShipperReference := jsOrS input.shipperReference ("SHOP-" ++ toString now)
            Service := "CLLCT"
            Weight := w
            WeightUnit := "kg"
            Length := "16", Width := "12", Height := "20", DimUnit := "cm"
            Value := v
            Currency := input.currency.getD "EUR"
            CustomsDuty := "DDU"
            Description := String.intercalate ", "
              (prods.map fun p => p.Description.getD "")
            DangerousGoods := "N"
            PudoLocationId := pudo
            ConsignorAddress :=
              { Name := shpr.Name, Company := shpr.Company.getD "",
                AddressLine1 := shpr.Address1, AddressLine2 := shpr.Address2.getD "",
                AddressLine3 := "", City := shpr.City, State := shpr.State.getD "",
                Zip := shpr.Zip, Country := shpr.CountryCode,
                Phone := shpr.Mobile.getD "", Email := shpr.Email.getD "",
                Vat := shpr.Vat.getD "ESB57818197",
                Eori := some (jsOrS shpr.Eori "ESB57818197"),
                PudoLocationId := none }
            ConsigneeAddress :=
              { Name := cons.Name, Company := cons.Company.getD "",
                AddressLine1 := cons.Address1, AddressLine2 := cons.Address2.getD "",
                AddressLine3 := "", City := cons.City, State := cons.State.getD "",
                Zip := cons.Zip, Country := cons.CountryCode,
                Phone := cons.Mobile.getD "", Email := cons.Email.getD "",
                Vat := "", Eori := none, PudoLocationId := some pudo }
            Products := outProds }
    | _, _, _, _, _, _ =>
        .error "TypeError: cannot read property of undefined"

/-- C4: an input lacking the consignee address, the products list or the
weight fails with the missing-required-fields client error before any
outbound aggregator call (the builder returns an error instead of a
request body); an input passing that check but lacking a pickup-point
identifier fails with its own distinct error, also before any outbound
call. -/
theorem shipment_builder_validation :
    (∀ (now : ℕ) (input : ShipmentInput),
      input.consigneeAddress = none ∨ input.products = none
          ∨ jnumTruthy input.weight = false →
      createXBSShipmentRequest now input = .error missingFieldsMsg)
    ∧ (∀ (now : ℕ) (input : ShipmentInput),
        input.consigneeAddress.isSome = true → input.products.isSome = true →
        jnumTruthy input.weight = true → optStrTruthy input.pudoLocationId = false →
        createXBSShipmentRequest now input = .error pudoRequiredMsg)
    ∧ missingFieldsMsg ≠ pudoRequiredMsg := by
  refine ⟨?_, ?_, by decide⟩
  · intro now input h
    rcases h with h | h | h <;>
      simp [createXBSShipmentRequest, h]
  · intro now input h1 h2 h3 h4
    simp [createXBSShipmentRequest, h1, h2, h3, h4]

/-- An otherwise complete shipment input used as the base of concrete
validation scenarios. -/
def sampleShipmentInput : ShipmentInput :=
  { shipperReference := some "SHOP-1001"
    service := some "CLLCT"
    weight := some (.num 1)
    value := some (.num 50)
    currency := some "EUR"
    pudoLocationId := some "H4045"
    consignorAddress := some
      { Name := some "Spring GDS", Company := some "Spring GDS",
        Address1 := some "Avenida Fuentemar 21", Address2 := some "",
        City := some "", State := some "MADRID", Zip := some "28880",
        CountryCode := some "ES", Mobile := some "971756727",
        Email := some "info@andypola.com", Vat := some "ESB57818197",
        Eori := some "ESB57818197" }
    consigneeAddress := some
      { Name := some "Test Customer", Company := some "",
        Address1 := some "123 Test Street", Address2 := some "",
        City := some "Paris", State := some "", Zip := some "75001",
        CountryCode := some "FR", Mobile := some "+33123456789",
        Email := some "customer@example.com", Vat := none, Eori := none }
    products := some
      [{ Description := some "Test Product", Sku := some "TEST-001",
         HsCode := some "3304990000", Quantity := some (.num 1),
         Value := some (.num 45) }] }

theorem shipment_builder_validation_witness :
    createXBSShipmentRequest 0 { sampleShipmentInput with consigneeAddress := none }
        = .error missingFieldsMsg
      ∧ createXBSShipmentRequest 0 { sampleShipmentInput with pudoLocationId := none }
          = .error pudoRequiredMsg := by
  exact ⟨shipment_builder_validation.1 0 _ (Or.inl rfl),
    shipment_builder_validation.2.1 0 _ rfl rfl (by decide) rfl⟩

/-- C10: a weight that is present but zero is falsy in the validation
check, so it is rejected with the same missing-required-fields error as
an absent weight. -/
theorem zero_weight_rejected_as_missing (now : ℕ) (input : ShipmentInput)
    (h : input.weight = some (.num 0)) :
    createXBSShipmentRequest now input = .error missingFieldsMsg
      ∧ createXBSShipmentRequest now { input with weight := none }
          = .error missingFieldsMsg := by
  constructor
  · have hw : jnumTruthy input.weight = false := by
      rw [h]
      simp [jnumTruthy]
    simp [createXBSShipmentRequest, hw]
  · simp [createXBSShipmentRequest, jnumTruthy]

theorem zero_weight_rejected_as_missing_witness :
    createXBSShipmentRequest 0 { sampleShipmentInput with weight := some (.num 0) }
        = .error missingFieldsMsg
      ∧ createXBSShipmentRequest 0 { sampleShipmentInput with weight := none }
          = .error missingFieldsMsg := by
  have h := zero_weight_rejected_as_missing 0
    { sampleShipmentInput with weight := some (.num 0) } rfl
  exact ⟨h.1, h.2⟩

/-- The `Shipment` object of an aggregator shipment-creation response. -/
structure RespShipment where
  TrackingNumber : Option String
  ShipperReference : Option String
  Carrier : Option String
  LabelImage : Option String
  LabelFormat : Option String
  deriving DecidableEq, Repr

/-- An aggregator response to an `OrderShipment` request. -/
structure XBSResponse where
  ErrorLevel : Option Int
  Error : Option String
  Shipment : Option RespShipment
  deriving DecidableEq, Repr

/-- The success result of `createXBSShipment` as returned to callers. -/
structure ShipmentResult where
  success : Bool
  trackingNumber : Option String
  shipperReference : Option String
  carrier : Option String
  labelImage : Option String
  labelFormat : Option String
  warning : Option String
  deriving DecidableEq, Repr

/-- The response handling of `createXBSShipment` (src/unnamed/part_000
lines 171-204): a present, truthy tracking number short-circuits to a
success carrying `data.Error` as `warning`, before the error-level check;
otherwise a non-zero (or absent) `ErrorLevel` throws, and the final
return reads `data.Shipment` (a TypeError when absent). -/
def handleShipmentResponse (data : XBSResponse) : Except String ShipmentResult :=
  match data.Shipment with
  | some s =>
      if optStrTruthy s.TrackingNumber then
        .ok { success := true, trackingNumber := s.TrackingNumber,
              shipperReference := s.ShipperReference, carrier := s.Carrier,
              labelImage := s.LabelImage, labelFormat := s.LabelFormat,
              warning := data.Error }
      else if data.ErrorLevel ≠ some 0 then
        .error ("XBS API Error: " ++ jsOrS data.Error "Unknown error")
      else
        .ok { success := true, trackingNumber := s.TrackingNumber,
              shipperReference := s.ShipperReference, carrier := s.Carrier,
              labelImage := s.LabelImage, labelFormat := s.LabelFormat,
              warning := none }
  | none =>
      if data.ErrorLevel ≠ some 0 then
        .error ("XBS API Error: " ++ jsOrS data.Error "Unknown error")
      else
        .error "TypeError: cannot read properties of undefined"

/-- C5: any response carrying a (truthy) tracking number yields a success
result with the tracking number, shipper reference, carrier, label image
and label format, and the aggregator's message exposed as the optional
`warning` — with no hypothesis on the error-level field, which may be
non-zero. -/
theorem tracking_number_overrides_error_level (data : XBSResponse) (s : RespShipment)
    (t : String) (hship : data.Shipment = some s) (htrack : s.TrackingNumber = some t)
    (ht : t ≠ "") :
    handleShipmentResponse data
      = .ok { success := true, trackingNumber := some t,
              shipperReference := s.ShipperReference, carrier := s.Carrier,
              labelImage := s.LabelImage, labelFormat := s.LabelFormat,
              warning := data.Error } := by
  have htruthy : optStrTruthy s.TrackingNumber = true := by
    rw [htrack]
    simp [optStrTruthy, ht]
  rw [handleShipmentResponse]
  simp only [hship]
  rw [if_pos htruthy, htrack]

theorem tracking_number_overrides_error_level_witness :
    handleShipmentResponse
        { ErrorLevel := some 1, Error := some "Non-fatal warning",
          Shipment := some
            { TrackingNumber := some "TN123", ShipperReference := some "SHOP-1001",
              Carrier := some "Colis Prive", LabelImage := some "BASE64",
              LabelFormat := some "ZPL200" } }
      = .ok { success := true, trackingNumber := some "TN123",
              shipperReference := some "SHOP-1001", carrier := some "Colis Prive",
              labelImage := some "BASE64", labelFormat := some "ZPL200",
              warning := some "Non-fatal warning" } := by
  exact tracking_number_overrides_error_level
    { ErrorLevel := some 1, Error := some "Non-fatal warning",
      Shipment := some
        { TrackingNumber := some "TN123", ShipperReference := some "SHOP-1001",
          Carrier := some "Colis Prive", LabelImage := some "BASE64",
          LabelFormat := some "ZPL200" } }
    { TrackingNumber := some "TN123", ShipperReference := some "SHOP-1001",
      Carrier := some "Colis Prive", LabelImage := some "BASE64",
      LabelFormat := some "ZPL200" }
    "TN123" rfl rfl (by decide)

/-- Modelled from the spec: no pickup-point cache exists in the sources
under src/ (the spec marks the cache as an optional component of the
Location Lookup Service).  Per §3 "Cache Entry" and §4.4 step 6: a single
entry holding a country-code key, an expiry timestamp and the point list;
a lookup first serves a live entry for the same country, otherwise calls
the aggregator and replaces the entry with one expiring a fixed TTL from
now. -/
structure CacheEntry where
  country : String
  expiry : ℕ
  points : List XBSLocation
  deriving DecidableEq, Repr

/-- Result of one cached lookup: the points served, the cache state after
the lookup, and whether an aggregator call was issued. -/
structure LookupOutcome where
  points : List XBSLocation
  cacheAfter : Option CacheEntry
  calledAggregator : Bool
  deriving DecidableEq, Repr

/-- Modelled from the spec (§4.4 step 6): check for a live cache entry
matching the country and return it immediately; otherwise issue the
aggregator call (whose filtered result is `fetched`) and store it as the
new single entry with expiry `now + ttl`, evicting any prior entry. -/
def cachedPudoLookup (cache : Option CacheEntry) (now ttl : ℕ) (country : String)
    (fetched : List XBSLocation) : LookupOutcome :=
  match cache with
  | some e =>
      if e.country = country ∧ now < e.expiry then
        { points := e.points, cacheAfter := some e, calledAggregator := false }
      else
        { points := fetched, cacheAfter := some ⟨country, now + ttl, fetched⟩,
          calledAggregator := true }
  | none =>
      { points := fetched, cacheAfter := some ⟨country, now + ttl, fetched⟩,
        calledAggregator := true }

/-- Count an aggregator call. -/
def callCount (b : Bool) : ℕ := if b then 1 else 0

/-- C7: two lookups for the same country within the TTL window issue at
most one aggregator call; a lookup for a different country before the
entry's expiry evicts the prior entry and replaces it with the new
country's; an entry is only ever served (no call issued) if it matches
the country and its expiry is in the future. -/
theorem cache_single_flight_and_eviction :
    (∀ (cache : Option CacheEntry) (now₁ now₂ ttl : ℕ) (country : String)
        (r₁ r₂ : List XBSLocation), now₁ ≤ now₂ → now₂ < now₁ + ttl →
      callCount (cachedPudoLookup cache now₁ ttl country r₁).calledAggregator
        + callCount (cachedPudoLookup
            (cachedPudoLookup cache now₁ ttl country r₁).cacheAfter
            now₂ ttl country r₂).calledAggregator ≤ 1)
    ∧ (∀ (e : CacheEntry) (now ttl : ℕ) (c₂ : String) (r : List XBSLocation),
        e.country ≠ c₂ → now < e.expiry →
        (cachedPudoLookup (some e) now ttl c₂ r).cacheAfter
          = some ⟨c₂, now + ttl, r⟩)
    ∧ (∀ (cache : Option CacheEntry) (now ttl : ℕ) (c : String)
        (r : List XBSLocation),
        (cachedPudoLookup cache now ttl c r).calledAggregator = false →
        ∃ e, cache = some e ∧ e.country = c ∧ now < e.expiry
          ∧ (cachedPudoLookup cache now ttl c r).points = e.points) := by
  refine ⟨?_, ?_, ?_⟩
  · intro cache now₁ now₂ ttl country r₁ r₂ h12 h2
    rcases cache with _ | e
    · simp only [cachedPudoLookup, callCount]
      have hc : now₂ < now₁ + ttl := h2
      simp [hc]
    · by_cases hhit : e.country = country ∧ now₁ < e.expiry
      · have h1 : cachedPudoLookup (some e) now₁ ttl country r₁
            = { points := e.points, cacheAfter := some e, calledAggregator := false } := by
          simp [cachedPudoLookup, hhit]
        rw [h1]
        cases hb : (cachedPudoLookup (some e) now₂ ttl country r₂).calledAggregator <;>
          simp [callCount, hb]
      · have h1 : cachedPudoLookup (some e) now₁ ttl country r₁
            = { points := r₁, cacheAfter := some ⟨country, now₁ + ttl, r₁⟩,
                calledAggregator := true } := by
          simp [cachedPudoLookup, hhit]
        rw [h1]
        simp [cachedPudoLookup, callCount, h2]
  · intro e now ttl c₂ r hne hlive
    have hcond : ¬(e.country = c₂ ∧ now < e.expiry) := by
      intro h
      exact hne h.1
    simp [cachedPudoLookup, hcond]
  · intro cache now ttl c r h
    rcases cache with _ | e
    · simp [cachedPudoLookup, callCount] at h
    · by_cases hhit : e.country = c ∧ now < e.expiry
      · exact ⟨e, rfl, hhit.1, hhit.2, by simp [cachedPudoLookup, hhit]⟩
      · simp [cachedPudoLookup, hhit] at h

theorem cache_single_flight_and_eviction_witness :
    callCount (cachedPudoLookup none 0 3600 "FR" []).calledAggregator
        + callCount (cachedPudoLookup
            (cachedPudoLookup none 0 3600 "FR" []).cacheAfter
            10 3600 "FR" []).calledAggregator ≤ 1
      ∧ (cachedPudoLookup (some ⟨"FR", 3600, []⟩) 10 3600 "PL" []).cacheAfter
          = some ⟨"PL", 3610, []⟩ := by
  exact ⟨cache_single_flight_and_eviction.1 none 0 10 3600 "FR" [] []
      (by omega) (by omega),
    cache_single_flight_and_eviction.2.1 ⟨"FR", 3600, []⟩ 10 3600 "PL" []
      (by decide) (by decide)⟩
